import Mathlib

/-!
Verification of the digest engine of `zig-crypto-bench`.

The repository source (`src/rust-crypto/src/lib.rs`) is a foreign-function
shim: `rust_sha256` / `rust_sha512` read `len` bytes from a `data` pointer,
hash them with the external `sha2` crate, and copy the 32- resp. 64-byte
digest to an `output` pointer.  The hash computation itself lives in that
external crate, not in this repository, so it is modelled here from the
spec (section 4.1, FIPS 180-4 shape): padding, message schedule,
compression rounds, chained block processing, big-endian output.  Bytes are
`Nat` values below 256; machine words are `Nat` reduced modulo `2 ^ 32`
(SHA-256) or `2 ^ 64` (SHA-512).  Memory, for the pointer-level wrapper
functions, is a total map `Nat → Nat` from addresses to bytes.
-/

namespace ZigCryptoBench

/-- Big-endian serialization of `n` into exactly `w` bytes
(most significant byte first; `n` is taken modulo `2 ^ (8 * w)`). -/
def beBytes : Nat → Nat → List Nat
  | 0, _ => []
  | w + 1, n => beBytes w (n / 256) ++ [n % 256]

/-- Big-endian word value of a byte list (first byte most significant). -/
def beWord (bs : List Nat) : Nat :=
  bs.foldl (fun acc b => acc * 256 + b) 0

/-- Split a list into consecutive chunks of size `k` (fuel-driven). -/
def chunksGo (k : Nat) : Nat → List Nat → List (List Nat)
  | 0, _ => []
  | _, [] => []
  | fuel + 1, l => l.take k :: chunksGo k fuel (l.drop k)

/-- Split a list into consecutive chunks of size `k`. -/
def chunks (k : Nat) (l : List Nat) : List (List Nat) :=
  chunksGo k l.length l

/-- Right rotation by `n` of a `w`-bit word (argument assumed `< 2 ^ w`). -/
def rotr (w n x : Nat) : Nat :=
  x / 2 ^ n + x % 2 ^ n * 2 ^ (w - n)

/-- FIPS 180-4 choice function `Ch`; `m` is the word modulus, used to
complement the first argument (`u ^^^ (m - 1)` is bitwise not below `m`). -/
def ch (m u v w : Nat) : Nat :=
  (u &&& v) ^^^ ((u ^^^ (m - 1)) &&& w)

/-- FIPS 180-4 majority function `Maj`. -/
def maj (u v w : Nat) : Nat :=
  (u &&& v) ^^^ (u &&& w) ^^^ (v &&& w)

/-- The eight word registers: working variables `a`..`h` during the rounds,
also the running hash state `H0`..`H7` between blocks. -/
structure Regs where
  a : Nat
  b : Nat
  c : Nat
  d : Nat
  e : Nat
  f : Nat
  g : Nat
  h : Nat

/-- Modelled from the spec: one compression round.  `m` is the word
modulus, `bS0`/`bS1` the big sigma mixing functions, `k` the round
constant, `w` the schedule word.  The working variables rotate and `a`,
`e` absorb `T1`/`T2` with modular (wrapping) addition. -/
def roundStep (m : Nat) (bS0 bS1 : Nat → Nat) (r : Regs) (k w : Nat) : Regs :=
  let t1 := (r.h + bS1 r.e + ch m r.e r.f r.g + k + w) % m
  let t2 := (bS0 r.a + maj r.a r.b r.c) % m
  { a := (t1 + t2) % m, b := r.a, c := r.b, d := r.c,
    e := (r.d + t1) % m, f := r.e, g := r.f, h := r.g }

/-- Run one compression round per `(constant, schedule word)` pair. -/
def rounds (m : Nat) (bS0 bS1 : Nat → Nat) : List (Nat × Nat) → Regs → Regs
  | [], r => r
  | (k, w) :: kws, r => rounds m bS0 bS1 kws (roundStep m bS0 bS1 r k w)

/-- Modelled from the spec: the message-schedule recurrence.  With `w` the
schedule so far, the next word is
`sS1 W[t-2] + W[t-7] + sS0 W[t-15] + W[t-16] (mod m)`. -/
def nextW (m : Nat) (sS0 sS1 : Nat → Nat) (w : List Nat) : Nat :=
  (sS1 (w.getD (w.length - 2) 0) + w.getD (w.length - 7) 0 +
    sS0 (w.getD (w.length - 15) 0) + w.getD (w.length - 16) 0) % m

/-- Extend the 16 block words by `n` further schedule words. -/
def extendW (m : Nat) (sS0 sS1 : Nat → Nat) : Nat → List Nat → List Nat
  | 0, w => w
  | n + 1, w => extendW m sS0 sS1 n (w ++ [nextW m sS0 sS1 w])

/-- Modelled from the spec: compress one block into the running state —
expand the schedule, run the rounds, then add the post-round working
variables into the state words with wraparound at the word width. -/
def compress (m : Nat) (bS0 bS1 sS0 sS1 : Nat → Nat) (K : List Nat)
    (nExt : Nat) (s : Regs) (block : List Nat) : Regs :=
  let t := rounds m bS0 bS1 (K.zip (extendW m sS0 sS1 nExt block)) s
  { a := (s.a + t.a) % m, b := (s.b + t.b) % m, c := (s.c + t.c) % m,
    d := (s.d + t.d) % m, e := (s.e + t.e) % m, f := (s.f + t.f) % m,
    g := (s.g + t.g) % m, h := (s.h + t.h) % m }

/-- Fold `compress` over the blocks of the padded message. -/
def processBlocks (m : Nat) (bS0 bS1 sS0 sS1 : Nat → Nat) (K : List Nat)
    (nExt : Nat) : List (List Nat) → Regs → Regs
  | [], s => s
  | b :: bs, s =>
    processBlocks m bS0 bS1 sS0 sS1 K nExt bs
      (compress m bS0 bS1 sS0 sS1 K nExt s b)

/-- Concatenate the state words in big-endian order, `wb` bytes each. -/
def digestBytes (wb : Nat) (s : Regs) : List Nat :=
  beBytes wb s.a ++ beBytes wb s.b ++ beBytes wb s.c ++ beBytes wb s.d ++
    beBytes wb s.e ++ beBytes wb s.f ++ beBytes wb s.g ++ beBytes wb s.h

/-! ## SHA-256 instantiation -/

/-- SHA-256 `Σ0`. -/
def bigS0c (x : Nat) : Nat := rotr 32 2 x ^^^ rotr 32 13 x ^^^ rotr 32 22 x

/-- SHA-256 `Σ1`. -/
def bigS1c (x : Nat) : Nat := rotr 32 6 x ^^^ rotr 32 11 x ^^^ rotr 32 25 x

/-- SHA-256 `σ0`. -/
def smlS0c (x : Nat) : Nat := rotr 32 7 x ^^^ rotr 32 18 x ^^^ x / 2 ^ 3

/-- SHA-256 `σ1`. -/
def smlS1c (x : Nat) : Nat := rotr 32 17 x ^^^ rotr 32 19 x ^^^ x / 2 ^ 10

/-- The 64 SHA-256 round constants (FIPS 180-4 §4.2.2), in decimal. -/
def K256 : List Nat := [
  1116352408, 1899447441, 3049323471, 3921009573,
  961987163, 1508970993, 2453635748, 2870763221,
  3624381080, 310598401, 607225278, 1426881987,
  1925078388, 2162078206, 2614888103, 3248222580,
  3835390401, 4022224774, 264347078, 604807628,
  770255983, 1249150122, 1555081692, 1996064986,
  2554220882, 2821834349, 2952996808, 3210313671,
  3336571891, 3584528711, 113926993, 338241895,
  666307205, 773529912, 1294757372, 1396182291,
  1695183700, 1986661051, 2177026350, 2456956037,
  2730485921, 2820302411, 3259730800, 3345764771,
  3516065817, 3600352804, 4094571909, 275423344,
  430227734, 506948616, 659060556, 883997877,
  958139571, 1322822218, 1537002063, 1747873779,
  1955562222, 2024104815, 2227730452, 2361852424,
  2428436474, 2756734187, 3204031479, 3329325298]

/-- SHA-256 initial hash value (FIPS 180-4 §5.3.3), in decimal. -/
def init256 : Regs :=
  { a := 1779033703, b := 3144134277, c := 1013904242, d := 2773480762,
    e := 1359893119, f := 2600822924, g := 528734635, h := 1541459225 }

/-- Zero bytes appended by SHA-256 padding for a message of `l` bytes. -/
def padZeros256 (l : Nat) : Nat := (64 - (l + 9) % 64) % 64

/-- Modelled from the spec: SHA-256 padding — append `0x80`, then zero
bytes until the length is 8 short of a 64-byte block boundary, then the
message bit length as an 8-byte big-endian integer. -/
def pad256 (msg : List Nat) : List Nat :=
  msg ++ 0x80 ::
    (List.replicate (padZeros256 msg.length) 0 ++ beBytes 8 (8 * msg.length))

/-- The padded message as 64-byte blocks of 16 big-endian 32-bit words. -/
def blocks256 (msg : List Nat) : List (List Nat) :=
  chunks 16 ((chunks 4 (pad256 msg)).map beWord)

/-- SHA-256 schedule: 16 block words extended to 64. -/
def schedule256 (block : List Nat) : List Nat :=
  extendW (2 ^ 32) smlS0c smlS1c 48 block

/-- SHA-256 compression of one block into the running state. -/
def compress256 (s : Regs) (block : List Nat) : Regs :=
  compress (2 ^ 32) bigS0c bigS1c smlS0c smlS1c K256 48 s block

/-- Final SHA-256 state after chaining all blocks of the padded message. -/
def finalState256 (msg : List Nat) : Regs :=
  processBlocks (2 ^ 32) bigS0c bigS1c smlS0c smlS1c K256 48
    (blocks256 msg) init256

/-- Modelled from the spec: the SHA-256 digest engine,
`sha256 (bytes) -> 32-byte digest` (the hashing the wrapper forwards to
the external `sha2` crate, absent from this repository source). -/
def sha256 (msg : List Nat) : List Nat :=
  digestBytes 4 (finalState256 msg)

/-! ## SHA-512 instantiation -/

/-- SHA-512 `Σ0`. -/
def bigS0q (x : Nat) : Nat := rotr 64 28 x ^^^ rotr 64 34 x ^^^ rotr 64 39 x

/-- SHA-512 `Σ1`. -/
def bigS1q (x : Nat) : Nat := rotr 64 14 x ^^^ rotr 64 18 x ^^^ rotr 64 41 x

/-- SHA-512 `σ0`. -/
def smlS0q (x : Nat) : Nat := rotr 64 1 x ^^^ rotr 64 8 x ^^^ x / 2 ^ 7

/-- SHA-512 `σ1`. -/
def smlS1q (x : Nat) : Nat := rotr 64 19 x ^^^ rotr 64 61 x ^^^ x / 2 ^ 6

/-- The 80 SHA-512 round constants (FIPS 180-4 §4.2.3), in decimal. -/
def K512 : List Nat := [
  4794697086780616226, 8158064640168781261, 13096744586834688815,
  16840607885511220156, 4131703408338449720, 6480981068601479193,
  10538285296894168987, 12329834152419229976, 15566598209576043074,
  1334009975649890238, 2608012711638119052, 6128411473006802146,
  8268148722764581231, 9286055187155687089, 11230858885718282805,
  13951009754708518548, 16472876342353939154, 17275323862435702243,
  1135362057144423861, 2597628984639134821, 3308224258029322869,
  5365058923640841347, 6679025012923562964, 8573033837759648693,
  10970295158949994411, 12119686244451234320, 12683024718118986047,
  13788192230050041572, 14330467153632333762, 15395433587784984357,
  489312712824947311, 1452737877330783856, 2861767655752347644,
  3322285676063803686, 5560940570517711597, 5996557281743188959,
  7280758554555802590, 8532644243296465576, 9350256976987008742,
  10552545826968843579, 11727347734174303076, 12113106623233404929,
  14000437183269869457, 14369950271660146224, 15101387698204529176,
  15463397548674623760, 17586052441742319658, 1182934255886127544,
  1847814050463011016, 2177327727835720531, 2830643537854262169,
  3796741975233480872, 4115178125766777443, 5681478168544905931,
  6601373596472566643, 7507060721942968483, 8399075790359081724,
  8693463985226723168, 9568029438360202098, 10144078919501101548,
  10430055236837252648, 11840083180663258601, 13761210420658862357,
  14299343276471374635, 14566680578165727644, 15097957966210449927,
  16922976911328602910, 17689382322260857208, 500013540394364858,
  748580250866718886, 1242879168328830382, 1977374033974150939,
  2944078676154940804, 3659926193048069267, 4368137639120453308,
  4836135668995329356, 5532061633213252278, 6448918945643986474,
  6902733635092675308, 7801388544844847127]

/-- SHA-512 initial hash value (FIPS 180-4 §5.3.5), in decimal. -/
def init512 : Regs :=
  { a := 7640891576956012808, b := 13503953896175478587,
    c := 4354685564936845355, d := 11912009170470909681,
    e := 5840696475078001361, f := 11170449401992604703,
    g := 2270897969802886507, h := 6620516959819538809 }

/-- Zero bytes appended by SHA-512 padding for a message of `l` bytes. -/
def padZeros512 (l : Nat) : Nat := (128 - (l + 17) % 128) % 128

/-- Modelled from the spec: SHA-512 padding — append `0x80`, then zero
bytes until the length is 16 short of a 128-byte block boundary, then the
message bit length as a 16-byte big-endian integer. -/
def pad512 (msg : List Nat) : List Nat :=
  msg ++ 0x80 ::
    (List.replicate (padZeros512 msg.length) 0 ++ beBytes 16 (8 * msg.length))

/-- The padded message as 128-byte blocks of 16 big-endian 64-bit words. -/
def blocks512 (msg : List Nat) : List (List Nat) :=
  chunks 16 ((chunks 8 (pad512 msg)).map beWord)

/-- SHA-512 schedule: 16 block words extended to 80. -/
def schedule512 (block : List Nat) : List Nat :=
  extendW (2 ^ 64) smlS0q smlS1q 64 block

/-- SHA-512 compression of one block into the running state. -/
def compress512 (s : Regs) (block : List Nat) : Regs :=
  compress (2 ^ 64) bigS0q bigS1q smlS0q smlS1q K512 64 s block

/-- Final SHA-512 state after chaining all blocks of the padded message. -/
def finalState512 (msg : List Nat) : Regs :=
  processBlocks (2 ^ 64) bigS0q bigS1q smlS0q smlS1q K512 64
    (blocks512 msg) init512

/-- Modelled from the spec: the SHA-512 digest engine,
`sha512 (bytes) -> 64-byte digest` (the hashing the wrapper forwards to
the external `sha2` crate, absent from this repository source). -/
def sha512 (msg : List Nat) : List Nat :=
  digestBytes 8 (finalState512 msg)

/-! ## The pointer-level wrapper (`src/rust-crypto/src/lib.rs`)

Memory is a total byte map `Nat → Nat`.  `rust_sha256 mem data len output`
is the post-call memory: the function reads `len` bytes at `data`, hashes
them, and copies the 32-byte digest to `output` (64 bytes for
`rust_sha512`), leaving everything else as it was. -/

/-- The `n` bytes of memory starting at address `p`. -/
def readBytes (mem : Nat → Nat) (p n : Nat) : List Nat :=
  (List.range n).map fun i => mem (p + i)

/-- Memory after writing the byte list `bs` starting at address `p`. -/
def writeBytes (mem : Nat → Nat) (p : Nat) (bs : List Nat) : Nat → Nat :=
  fun a => if p ≤ a ∧ a < p + bs.length then bs.getD (a - p) 0 else mem a

/-- Model of `rust_sha256(data, len, output)` from `lib.rs`: slice `len`
bytes at `data`, hash with a fresh `Sha256` hasher, copy the 32-byte
digest to `output`.  Returns the post-call memory. -/
def rust_sha256 (mem : Nat → Nat) (data len output : Nat) : Nat → Nat :=
  writeBytes mem output (sha256 (readBytes mem data len))

/-- Model of `rust_sha512(data, len, output)` from `lib.rs`: slice `len`
bytes at `data`, hash with a fresh `Sha512` hasher, copy the 64-byte
digest to `output`.  Returns the post-call memory. -/
def rust_sha512 (mem : Nat → Nat) (data len output : Nat) : Nat → Nat :=
  writeBytes mem output (sha512 (readBytes mem data len))

/-! ## Helper lemmas -/

/-- Big-endian serialization produces exactly `w` bytes. -/
theorem beBytes_length (w n : Nat) : (beBytes w n).length = w := by
  induction w generalizing n with
  | zero => rfl
  | succ w ih => simp [beBytes, ih]

/-- Every serialized byte is below 256. -/
theorem beBytes_lt (w n : Nat) : ∀ b ∈ beBytes w n, b < 256 := by
  induction w generalizing n with
  | zero => intro b hb; simp [beBytes] at hb
  | succ w ih =>
    intro b hb
    simp only [beBytes, List.mem_append, List.mem_singleton] at hb
    rcases hb with hb | hb
    · exact ih _ _ hb
    · subst hb; exact Nat.mod_lt _ (by omega)

/-- A digest is `8 * wb` bytes: eight big-endian state words. -/
theorem digestBytes_length (wb : Nat) (s : Regs) :
    (digestBytes wb s).length = 8 * wb := by
  simp [digestBytes, beBytes_length]; omega

/-- A SHA-256 digest has 32 bytes. -/
theorem sha256_length (msg : List Nat) : (sha256 msg).length = 32 := by
  simp [sha256, digestBytes_length]

/-- A SHA-512 digest has 64 bytes. -/
theorem sha512_length (msg : List Nat) : (sha512 msg).length = 64 := by
  simp [sha512, digestBytes_length]

/-- Every SHA-256 digest byte is a byte value. -/
theorem sha256_bytes_lt (msg : List Nat) : ∀ b ∈ sha256 msg, b < 256 := by
  intro b hb
  simp only [sha256, digestBytes, List.mem_append] at hb
  rcases hb with ((((((h | h) | h) | h) | h) | h) | h) | h <;>
    exact beBytes_lt _ _ _ h

/-- Every SHA-512 digest byte is a byte value. -/
theorem sha512_bytes_lt (msg : List Nat) : ∀ b ∈ sha512 msg, b < 256 := by
  intro b hb
  simp only [sha512, digestBytes, List.mem_append] at hb
  rcases hb with ((((((h | h) | h) | h) | h) | h) | h) | h <;>
    exact beBytes_lt _ _ _ h

/-- Extending the schedule by `n` steps adds `n` words. -/
theorem extendW_length (m : Nat) (f0 f1 : Nat → Nat) (n : Nat)
    (w : List Nat) : (extendW m f0 f1 n w).length = w.length + n := by
  induction n generalizing w with
  | zero => rfl
  | succ n ih => simp [extendW, ih]; omega

/-- Reading a list back from its `getD` values reproduces the list. -/
theorem range_map_getD (l : List Nat) (d : Nat) :
    (List.range l.length).map (fun i => l.getD i d) = l := by
  induction l with
  | nil => rfl
  | cons x xs ih =>
    rw [List.length_cons, List.range_succ_eq_map, List.map_cons,
      List.map_map]
    simpa [Function.comp_def] using ih

/-- Reading the full written region returns the written bytes. -/
theorem readBytes_writeBytes (mem : Nat → Nat) (p : Nat) (bs : List Nat) :
    readBytes (writeBytes mem p bs) p bs.length = bs := by
  unfold readBytes writeBytes
  rw [List.map_congr_left (g := fun i => bs.getD i 0) ?_]
  · exact range_map_getD bs 0
  · intro i hi
    rw [List.mem_range] at hi
    rw [if_pos ⟨Nat.le_add_right _ _, by omega⟩]
    congr 1
    omega

/-- Reading the written region, given the byte count. -/
theorem readBytes_writeBytes_len (mem : Nat → Nat) (p n : Nat)
    (bs : List Nat) (h : bs.length = n) :
    readBytes (writeBytes mem p bs) p n = bs := by
  subst h; exact readBytes_writeBytes mem p bs

/-- Addresses outside the written region are untouched. -/
theorem writeBytes_outside (mem : Nat → Nat) (p : Nat) (bs : List Nat)
    (a : Nat) (h : a < p ∨ p + bs.length ≤ a) :
    writeBytes mem p bs a = mem a := by
  unfold writeBytes
  rw [if_neg (by omega)]

/-- Reading a region disjoint from the written one sees the old memory. -/
theorem readBytes_writeBytes_disjoint (mem : Nat → Nat) (p n q : Nat)
    (bs : List Nat) (h : p + n ≤ q ∨ q + bs.length ≤ p) :
    readBytes (writeBytes mem q bs) p n = readBytes mem p n := by
  unfold readBytes
  refine List.map_congr_left ?_
  intro i hi
  rw [List.mem_range] at hi
  exact writeBytes_outside mem q bs (p + i) (by omega)

/-! ## Claim theorems -/

set_option maxRecDepth 1000000

/-- The two-block FIPS 180-4 SHA-256 example message (448 bits,
`"abcdbcdecdefdefgefghfghighijhijkijkljklmklmnlmnomnopnopq"`),
whose padded form spans two 64-byte blocks. -/
def fipsMsg448 : List Nat := [
  0x61, 0x62, 0x63, 0x64, 0x62, 0x63, 0x64, 0x65,
  0x63, 0x64, 0x65, 0x66, 0x64, 0x65, 0x66, 0x67,
  0x65, 0x66, 0x67, 0x68, 0x66, 0x67, 0x68, 0x69,
  0x67, 0x68, 0x69, 0x6a, 0x68, 0x69, 0x6a, 0x6b,
  0x69, 0x6a, 0x6b, 0x6c, 0x6a, 0x6b, 0x6c, 0x6d,
  0x6b, 0x6c, 0x6d, 0x6e, 0x6c, 0x6d, 0x6e, 0x6f,
  0x6d, 0x6e, 0x6f, 0x70, 0x6e, 0x6f, 0x70, 0x71]

/-- The published SHA-256 digest of `fipsMsg448` (FIPS 180-4 example,
an independently computed reference value). -/
def fipsDigest448 : List Nat := [
  0x24, 0x8d, 0x6a, 0x61, 0xd2, 0x06, 0x38, 0xb8,
  0xe5, 0xc0, 0x26, 0x93, 0x0c, 0x3e, 0x60, 0x39,
  0xa3, 0x3c, 0xe4, 0x59, 0x64, 0xff, 0x21, 0x67,
  0xf6, 0xec, 0xed, 0xd4, 0x19, 0xdb, 0x06, 0xc1]

/-- The two-block FIPS 180-4 SHA-512 example message (896 bits,
`"abcdefghbcdefghicdefghijdefghijkefghijklfghijklmghijklmnhijklmno` +
`ijklmnopjklmnopqklmnopqrlmnopqrsmnopqrstnopqrstu"`), whose padded form
spans two 128-byte blocks. -/
def fipsMsg896 : List Nat := [
  0x61, 0x62, 0x63, 0x64, 0x65, 0x66, 0x67, 0x68,
  0x62, 0x63, 0x64, 0x65, 0x66, 0x67, 0x68, 0x69,
  0x63, 0x64, 0x65, 0x66, 0x67, 0x68, 0x69, 0x6a,
  0x64, 0x65, 0x66, 0x67, 0x68, 0x69, 0x6a, 0x6b,
  0x65, 0x66, 0x67, 0x68, 0x69, 0x6a, 0x6b, 0x6c,
  0x66, 0x67, 0x68, 0x69, 0x6a, 0x6b, 0x6c, 0x6d,
  0x67, 0x68, 0x69, 0x6a, 0x6b, 0x6c, 0x6d, 0x6e,
  0x68, 0x69, 0x6a, 0x6b, 0x6c, 0x6d, 0x6e, 0x6f,
  0x69, 0x6a, 0x6b, 0x6c, 0x6d, 0x6e, 0x6f, 0x70,
  0x6a, 0x6b, 0x6c, 0x6d, 0x6e, 0x6f, 0x70, 0x71,
  0x6b, 0x6c, 0x6d, 0x6e, 0x6f, 0x70, 0x71, 0x72,
  0x6c, 0x6d, 0x6e, 0x6f, 0x70, 0x71, 0x72, 0x73,
  0x6d, 0x6e, 0x6f, 0x70, 0x71, 0x72, 0x73, 0x74,
  0x6e, 0x6f, 0x70, 0x71, 0x72, 0x73, 0x74, 0x75]

/-- The published SHA-512 digest of `fipsMsg896` (FIPS 180-4 example,
an independently computed reference value). -/
def fipsDigest896 : List Nat := [
  0x8e, 0x95, 0x9b, 0x75, 0xda, 0xe3, 0x13, 0xda,
  0x8c, 0xf4, 0xf7, 0x28, 0x14, 0xfc, 0x14, 0x3f,
  0x8f, 0x77, 0x79, 0xc6, 0xeb, 0x9f, 0x7f, 0xa1,
  0x72, 0x99, 0xae, 0xad, 0xb6, 0x88, 0x90, 0x18,
  0x50, 0x1d, 0x28, 0x9e, 0x49, 0x00, 0xf7, 0xe4,
  0x33, 0x1b, 0x99, 0xde, 0xc4, 0xb5, 0x43, 0x3a,
  0xc7, 0xd3, 0x29, 0xee, 0xb6, 0xdd, 0x26, 0x54,
  0x5e, 0x96, 0xe5, 0x5b, 0x87, 0x4b, 0xe9, 0x09]

/-- C1: the digest engine is bit-exact against the published FIPS 180-4
reference digests on the standard multi-block example messages, so the
chaining of the running state across blocks matches the standard (the
single-block vectors are checked by the C2 and C3 theorems). -/
theorem sha2_matches_fips_reference_multiblock :
    sha256 fipsMsg448 = fipsDigest448 ∧
    sha512 fipsMsg896 = fipsDigest896 := by
  constructor <;> decide

/-- C2: the empty input produces the well-known SHA-256 empty digest
`e3b0c442...b855` and the well-known SHA-512 empty digest
`cf83e135...da3e`. -/
theorem sha2_empty_input_digests :
    sha256 [] = [
      0xe3, 0xb0, 0xc4, 0x42, 0x98, 0xfc, 0x1c, 0x14,
      0x9a, 0xfb, 0xf4, 0xc8, 0x99, 0x6f, 0xb9, 0x24,
      0x27, 0xae, 0x41, 0xe4, 0x64, 0x9b, 0x93, 0x4c,
      0xa4, 0x95, 0x99, 0x1b, 0x78, 0x52, 0xb8, 0x55] ∧
    sha512 [] = [
      0xcf, 0x83, 0xe1, 0x35, 0x7e, 0xef, 0xb8, 0xbd,
      0xf1, 0x54, 0x28, 0x50, 0xd6, 0x6d, 0x80, 0x07,
      0xd6, 0x20, 0xe4, 0x05, 0x0b, 0x57, 0x15, 0xdc,
      0x83, 0xf4, 0xa9, 0x21, 0xd3, 0x6c, 0xe9, 0xce,
      0x47, 0xd0, 0xd1, 0x3c, 0x5d, 0x85, 0xf2, 0xb0,
      0xff, 0x83, 0x18, 0xd2, 0x87, 0x7e, 0xec, 0x2f,
      0x63, 0xb9, 0x31, 0xbd, 0x47, 0x41, 0x7a, 0x81,
      0xa5, 0x38, 0x32, 0x7a, 0xf9, 0x27, 0xda, 0x3e] := by
  constructor <;> decide

/-- C3: the input `"abc"` produces the published SHA-256 digest
`ba7816bf...15ad` and the published SHA-512 digest `ddaf35a1...a49f`. -/
theorem sha2_abc_digests :
    sha256 [0x61, 0x62, 0x63] = [
      0xba, 0x78, 0x16, 0xbf, 0x8f, 0x01, 0xcf, 0xea,
      0x41, 0x41, 0x40, 0xde, 0x5d, 0xae, 0x22, 0x23,
      0xb0, 0x03, 0x61, 0xa3, 0x96, 0x17, 0x7a, 0x9c,
      0xb4, 0x10, 0xff, 0x61, 0xf2, 0x00, 0x15, 0xad] ∧
    sha512 [0x61, 0x62, 0x63] = [
      0xdd, 0xaf, 0x35, 0xa1, 0x93, 0x61, 0x7a, 0xba,
      0xcc, 0x41, 0x73, 0x49, 0xae, 0x20, 0x41, 0x31,
      0x12, 0xe6, 0xfa, 0x4e, 0x89, 0xa9, 0x7e, 0xa2,
      0x0a, 0x9e, 0xee, 0xe6, 0x4b, 0x55, 0xd3, 0x9a,
      0x21, 0x92, 0x99, 0x2a, 0x27, 0x4f, 0xc1, 0xa8,
      0x36, 0xba, 0x3c, 0x23, 0xa3, 0xfe, 0xeb, 0xbd,
      0x45, 0x4d, 0x44, 0x23, 0x64, 0x3c, 0xe8, 0x0e,
      0x2a, 0x9a, 0xc9, 0x4f, 0xa5, 0x4c, 0xa4, 0x9f] := by
  constructor <;> decide

/-- C4: every SHA-256 digest has exactly 32 bytes and every SHA-512
digest has exactly 64 bytes. -/
theorem sha2_digest_lengths (msg : List Nat) :
    (sha256 msg).length = 32 ∧ (sha512 msg).length = 64 :=
  ⟨sha256_length msg, sha512_length msg⟩

/-- C8: both hash functions are total over all byte sequences, the empty
one included: every input yields a digest — a complete, well-formed byte
list of the full fixed size, with no error or partial result. -/
theorem sha2_totality (msg : List Nat) :
    (∃ d, sha256 msg = d ∧ d.length = 32 ∧ ∀ b ∈ d, b < 256) ∧
    (∃ d, sha512 msg = d ∧ d.length = 64 ∧ ∀ b ∈ d, b < 256) :=
  ⟨⟨sha256 msg, rfl, sha256_length msg, sha256_bytes_lt msg⟩,
    ⟨sha512 msg, rfl, sha512_length msg, sha512_bytes_lt msg⟩⟩

/-- Witness for C8 at the concrete empty input. -/
theorem sha2_totality_witness :
    ∃ d, sha256 [] = d ∧ d.length = 32 ∧ ∀ b ∈ d, b < 256 :=
  (sha2_totality []).1

/-- Padded SHA-256 length: message, marker, zeros, 8-byte length field. -/
theorem pad256_length (msg : List Nat) :
    (pad256 msg).length = msg.length + 1 + padZeros256 msg.length + 8 := by
  simp [pad256, beBytes_length]
  omega

/-- Padded SHA-512 length: message, marker, zeros, 16-byte length field. -/
theorem pad512_length (msg : List Nat) :
    (pad512 msg).length = msg.length + 1 + padZeros512 msg.length + 16 := by
  simp [pad512, beBytes_length]
  omega

/-- C5: padding appends one `0x80` byte, then `0x00` bytes until the bit
length is `block_size − length_field_size` modulo the block size (448 mod
512 for SHA-256, 896 mod 1024 for SHA-512), then the message bit length
as a big-endian integer in the length field (8 bytes for SHA-256, 16 for
SHA-512), yielding whole blocks; an input sitting exactly on a block
boundary (64 bytes for SHA-256, 128 for SHA-512) pads to one extra
block. -/
theorem sha2_padding_scheme (msg : List Nat) :
    (∃ k, pad256 msg =
        msg ++ 0x80 :: (List.replicate k 0 ++ beBytes 8 (8 * msg.length)) ∧
      (8 * (msg.length + 1 + k)) % 512 = 448) ∧
    (pad256 msg).length % 64 = 0 ∧
    (∃ k, pad512 msg =
        msg ++ 0x80 :: (List.replicate k 0 ++ beBytes 16 (8 * msg.length)) ∧
      (8 * (msg.length + 1 + k)) % 1024 = 896) ∧
    (pad512 msg).length % 128 = 0 ∧
    (msg.length = 64 → (pad256 msg).length = 128) ∧
    (msg.length = 128 → (pad512 msg).length = 256) := by
  refine ⟨⟨padZeros256 msg.length, rfl, ?_⟩, ?_,
    ⟨padZeros512 msg.length, rfl, ?_⟩, ?_, ?_, ?_⟩
  · simp only [padZeros256]; omega
  · rw [pad256_length]; simp only [padZeros256]; omega
  · simp only [padZeros512]; omega
  · rw [pad512_length]; simp only [padZeros512]; omega
  · intro h; rw [pad256_length, h]; simp only [padZeros256]
  · intro h; rw [pad512_length, h]; simp only [padZeros512]

/-- Witness for C5 at block-boundary inputs: a 64-byte message pads to
two SHA-256 blocks and a 128-byte message pads to two SHA-512 blocks. -/
theorem sha2_padding_scheme_witness :
    (pad256 (List.replicate 64 0)).length = 128 ∧
    (pad512 (List.replicate 128 0)).length = 256 :=
  ⟨(sha2_padding_scheme (List.replicate 64 0)).2.2.2.2.1 (by simp),
    (sha2_padding_scheme (List.replicate 128 0)).2.2.2.2.2 (by simp)⟩

/-- C6: after the fixed number of rounds (64 for SHA-256, 80 for
SHA-512 — the length of the zipped constant/schedule list the round loop
consumes), the post-round working variables are added into the running
state words modulo the word width (`2 ^ 32` resp. `2 ^ 64`), and each
digest is the concatenation of the final state words in big-endian byte
order. -/
theorem sha2_compression_addition_and_output (s : Regs) (b msg : List Nat) :
    (b.length = 16 → (K256.zip (schedule256 b)).length = 64) ∧
    (b.length = 16 → (K512.zip (schedule512 b)).length = 80) ∧
    (compress256 s b =
      { a := (s.a + (rounds (2 ^ 32) bigS0c bigS1c
            (K256.zip (schedule256 b)) s).a) % 2 ^ 32,
        b := (s.b + (rounds (2 ^ 32) bigS0c bigS1c
            (K256.zip (schedule256 b)) s).b) % 2 ^ 32,
        c := (s.c + (rounds (2 ^ 32) bigS0c bigS1c
            (K256.zip (schedule256 b)) s).c) % 2 ^ 32,
        d := (s.d + (rounds (2 ^ 32) bigS0c bigS1c
            (K256.zip (schedule256 b)) s).d) % 2 ^ 32,
        e := (s.e + (rounds (2 ^ 32) bigS0c bigS1c
            (K256.zip (schedule256 b)) s).e) % 2 ^ 32,
        f := (s.f + (rounds (2 ^ 32) bigS0c bigS1c
            (K256.zip (schedule256 b)) s).f) % 2 ^ 32,
        g := (s.g + (rounds (2 ^ 32) bigS0c bigS1c
            (K256.zip (schedule256 b)) s).g) % 2 ^ 32,
        h := (s.h + (rounds (2 ^ 32) bigS0c bigS1c
            (K256.zip (schedule256 b)) s).h) % 2 ^ 32 }) ∧
    (compress512 s b =
      { a := (s.a + (rounds (2 ^ 64) bigS0q bigS1q
            (K512.zip (schedule512 b)) s).a) % 2 ^ 64,
        b := (s.b + (rounds (2 ^ 64) bigS0q bigS1q
            (K512.zip (schedule512 b)) s).b) % 2 ^ 64,
        c := (s.c + (rounds (2 ^ 64) bigS0q bigS1q
            (K512.zip (schedule512 b)) s).c) % 2 ^ 64,
        d := (s.d + (rounds (2 ^ 64) bigS0q bigS1q
            (K512.zip (schedule512 b)) s).d) % 2 ^ 64,
        e := (s.e + (rounds (2 ^ 64) bigS0q bigS1q
            (K512.zip (schedule512 b)) s).e) % 2 ^ 64,
        f := (s.f + (rounds (2 ^ 64) bigS0q bigS1q
            (K512.zip (schedule512 b)) s).f) % 2 ^ 64,
        g := (s.g + (rounds (2 ^ 64) bigS0q bigS1q
            (K512.zip (schedule512 b)) s).g) % 2 ^ 64,
        h := (s.h + (rounds (2 ^ 64) bigS0q bigS1q
            (K512.zip (schedule512 b)) s).h) % 2 ^ 64 }) ∧
    sha256 msg =
      beBytes 4 (finalState256 msg).a ++ beBytes 4 (finalState256 msg).b ++
      beBytes 4 (finalState256 msg).c ++ beBytes 4 (finalState256 msg).d ++
      beBytes 4 (finalState256 msg).e ++ beBytes 4 (finalState256 msg).f ++
      beBytes 4 (finalState256 msg).g ++ beBytes 4 (finalState256 msg).h ∧
    sha512 msg =
      beBytes 8 (finalState512 msg).a ++ beBytes 8 (finalState512 msg).b ++
      beBytes 8 (finalState512 msg).c ++ beBytes 8 (finalState512 msg).d ++
      beBytes 8 (finalState512 msg).e ++ beBytes 8 (finalState512 msg).f ++
      beBytes 8 (finalState512 msg).g ++ beBytes 8 (finalState512 msg).h := by
  refine ⟨?_, ?_, rfl, rfl, rfl, rfl⟩
  · intro h
    rw [List.length_zip, schedule256, extendW_length, h]
    decide
  · intro h
    rw [List.length_zip, schedule512, extendW_length, h]
    decide

/-- Witness for C6: the round loop consumes exactly 64 pairs for a
16-word SHA-256 block and 80 pairs for a 16-word SHA-512 block. -/
theorem sha2_compression_addition_and_output_witness :
    (K256.zip (schedule256 (List.replicate 16 0))).length = 64 ∧
    (K512.zip (schedule512 (List.replicate 16 0))).length = 80 :=
  ⟨(sha2_compression_addition_and_output init256 (List.replicate 16 0)
      []).1 (by simp),
    (sha2_compression_addition_and_output init512 (List.replicate 16 0)
      []).2.1 (by simp)⟩

/-- C7: determinism — the hasher is created fresh inside each call and no
state is shared across calls, so a second call on the same input region
(disjoint from the output buffer) writes exactly the same digest bytes
the first call wrote. -/
theorem rust_sha2_deterministic (mem : Nat → Nat) (data len out : Nat)
    (h256 : data + len ≤ out ∨ out + 32 ≤ data)
    (h512 : data + len ≤ out ∨ out + 64 ≤ data) :
    readBytes (rust_sha256 (rust_sha256 mem data len out) data len out)
        out 32
      = readBytes (rust_sha256 mem data len out) out 32 ∧
    readBytes (rust_sha512 (rust_sha512 mem data len out) data len out)
        out 64
      = readBytes (rust_sha512 mem data len out) out 64 := by
  constructor
  · have hin : readBytes (rust_sha256 mem data len out) data len
        = readBytes mem data len :=
      readBytes_writeBytes_disjoint mem data len out _
        (by rw [sha256_length]; exact h256)
    simp only [rust_sha256] at hin ⊢
    rw [hin, readBytes_writeBytes_len _ _ _ _ (sha256_length _),
      readBytes_writeBytes_len _ _ _ _ (sha256_length _)]
  · have hin : readBytes (rust_sha512 mem data len out) data len
        = readBytes mem data len :=
      readBytes_writeBytes_disjoint mem data len out _
        (by rw [sha512_length]; exact h512)
    simp only [rust_sha512] at hin ⊢
    rw [hin, readBytes_writeBytes_len _ _ _ _ (sha512_length _),
      readBytes_writeBytes_len _ _ _ _ (sha512_length _)]

/-- Witness for C7 at a concrete memory, empty input at address 0,
output buffer at address 100. -/
theorem rust_sha2_deterministic_witness :
    readBytes
        (rust_sha256 (rust_sha256 (fun _ => 0) 0 0 100) 0 0 100) 100 32
      = readBytes (rust_sha256 (fun _ => 0) 0 0 100) 100 32 ∧
    readBytes
        (rust_sha512 (rust_sha512 (fun _ => 0) 0 0 100) 0 0 100) 100 64
      = readBytes (rust_sha512 (fun _ => 0) 0 0 100) 100 64 :=
  rust_sha2_deterministic (fun _ => 0) 0 0 100
    (Or.inl (by decide)) (Or.inl (by decide))

/-- C9: frame — `rust_sha256` writes exactly the 32 bytes
`output[0..32)` (the digest of the `len` bytes read at `data`) and
leaves every other address unchanged; in particular, when the input
region is disjoint from the output buffer, the input bytes are read but
not modified.  Likewise `rust_sha512` with 64 bytes. -/
theorem rust_sha2_frame (mem : Nat → Nat) (data len out : Nat) :
    (∀ a, a < out ∨ out + 32 ≤ a → rust_sha256 mem data len out a = mem a) ∧
    readBytes (rust_sha256 mem data len out) out 32
      = sha256 (readBytes mem data len) ∧
    (data + len ≤ out ∨ out + 32 ≤ data →
      readBytes (rust_sha256 mem data len out) data len
        = readBytes mem data len) ∧
    (∀ a, a < out ∨ out + 64 ≤ a → rust_sha512 mem data len out a = mem a) ∧
    readBytes (rust_sha512 mem data len out) out 64
      = sha512 (readBytes mem data len) ∧
    (data + len ≤ out ∨ out + 64 ≤ data →
      readBytes (rust_sha512 mem data len out) data len
        = readBytes mem data len) := by
  refine ⟨?_, ?_, ?_, ?_, ?_, ?_⟩
  · intro a ha
    exact writeBytes_outside mem out _ a (by rw [sha256_length]; exact ha)
  · exact readBytes_writeBytes_len _ _ _ _ (sha256_length _)
  · intro hd
    exact readBytes_writeBytes_disjoint mem data len out _
      (by rw [sha256_length]; exact hd)
  · intro a ha
    exact writeBytes_outside mem out _ a (by rw [sha512_length]; exact ha)
  · exact readBytes_writeBytes_len _ _ _ _ (sha512_length _)
  · intro hd
    exact readBytes_writeBytes_disjoint mem data len out _
      (by rw [sha512_length]; exact hd)

/-- Witness for C9 at a concrete memory: address 7 (outside both output
buffers) is untouched and a disjoint 3-byte input region is preserved. -/
theorem rust_sha2_frame_witness :
    rust_sha256 (fun a => a) 0 3 100 7 = 7 ∧
    readBytes (rust_sha256 (fun a => a) 0 3 100) 0 3
      = readBytes (fun a => a) 0 3 ∧
    rust_sha512 (fun a => a) 0 3 100 7 = 7 ∧
    readBytes (rust_sha512 (fun a => a) 0 3 100) 0 3
      = readBytes (fun a => a) 0 3 :=
  ⟨(rust_sha2_frame (fun a => a) 0 3 100).1 7 (Or.inl (by decide)),
    (rust_sha2_frame (fun a => a) 0 3 100).2.2.1 (Or.inl (by decide)),
    (rust_sha2_frame (fun a => a) 0 3 100).2.2.2.1 7 (Or.inl (by decide)),
    (rust_sha2_frame (fun a => a) 0 3 100).2.2.2.2.2 (Or.inl (by decide))⟩

/-- C10: noninterference at the boundary — two calls whose `len` agree
and whose input regions hold the same bytes write identical digests,
whatever the pointer addresses and the output buffers' prior contents
(the memories, input addresses and output addresses are all unrelated
on the two sides). -/
theorem rust_sha2_noninterference (mem1 mem2 : Nat → Nat)
    (data1 data2 out1 out2 len : Nat)
    (hin : readBytes mem1 data1 len = readBytes mem2 data2 len) :
    readBytes (rust_sha256 mem1 data1 len out1) out1 32
      = readBytes (rust_sha256 mem2 data2 len out2) out2 32 ∧
    readBytes (rust_sha512 mem1 data1 len out1) out1 64
      = readBytes (rust_sha512 mem2 data2 len out2) out2 64 := by
  constructor
  · simp only [rust_sha256]
    rw [readBytes_writeBytes_len _ _ _ _ (sha256_length _),
      readBytes_writeBytes_len _ _ _ _ (sha256_length _), hin]
  · simp only [rust_sha512]
    rw [readBytes_writeBytes_len _ _ _ _ (sha512_length _),
      readBytes_writeBytes_len _ _ _ _ (sha512_length _), hin]

/-- Witness for C10: two different memories, input pointers and output
pointers with equal 2-byte input contents give equal digests. -/
theorem rust_sha2_noninterference_witness :
    readBytes (rust_sha256 (fun _ => 3) 5 2 40) 40 32
      = readBytes (rust_sha256 (fun a => if a < 20 then 3 else 9) 11 2 80)
          80 32 ∧
    readBytes (rust_sha512 (fun _ => 3) 5 2 40) 40 64
      = readBytes (rust_sha512 (fun a => if a < 20 then 3 else 9) 11 2 80)
          80 64 :=
  rust_sha2_noninterference (fun _ => 3) (fun a => if a < 20 then 3 else 9)
    5 11 40 80 2 (by decide)

end ZigCryptoBench
